import Mathlib

/-!
Verification of the control-sheet generator (`src/APR.py`).

The embedding models the two core components of the program:
`write_into_merged` (merged-region resolution on scalar writes) and
`populate_fiche` (field mapping from the OCR source tables into a copy
of the template worksheet).  File I/O, pandas `read_excel` and openpyxl
`load_workbook`/`save` are the caller's plumbing; the embedding takes
the already-loaded source tables and template sheet as values.
-/

namespace APR

/-- A cell coordinate of the worksheet: 1-based column and row
(for example `M1` is `⟨13, 1⟩`, `X2` is `⟨24, 2⟩`). -/
structure Coord where
  col : Nat
  row : Nat
deriving DecidableEq, Repr

/-- A merged cell range of the worksheet with inclusive bounds,
as held by `ws.merged_cells.ranges` in openpyxl. -/
structure CellRange where
  min_col : Nat
  min_row : Nat
  max_col : Nat
  max_row : Nat
deriving DecidableEq, Repr

/-- openpyxl membership test `coord in rng`: the coordinate lies within
the inclusive bounds of the range. -/
def CellRange.containsC (r : CellRange) (c : Coord) : Bool :=
  decide (r.min_col ≤ c.col ∧ c.col ≤ r.max_col ∧ r.min_row ≤ c.row ∧ c.row ≤ r.max_row)

/-- A scalar cell value as handled by the pandas/openpyxl layer.
`pynone` is Python `None` (absent key / skipped value), `nan` is the
pandas missing-value marker `float("nan")`, `datetime` is a timestamp
carrying a day number plus seconds-of-day, `date` a day-precision date
as produced by `Timestamp.date()`. -/
inductive PdVal where
  | pynone
  | nan
  | str (s : String)
  | num (n : Int)
  | datetime (day : Int) (secs : Nat)
  | date (day : Int)
deriving DecidableEq, Repr

/-- `pd.isna`: true exactly on Python `None` and on `NaN`. -/
def pdIsna : PdVal → Bool
  | .pynone => true
  | .nan => true
  | _ => false

/-- `pd.notna`. -/
def pdNotna (v : PdVal) : Bool := !pdIsna v

/-- Python truthiness of a cell value: `None`, `0` and `""` are falsy;
note that `float("nan")` is truthy in Python. -/
def pyTruthy : PdVal → Bool
  | .pynone => false
  | .nan => true
  | .str s => !s.isEmpty
  | .num n => decide (n ≠ 0)
  | .datetime _ _ => true
  | .date _ => true

/-- Python `a or b`: the first operand when truthy, else the second. -/
def pyOr (a b : PdVal) : PdVal := if pyTruthy a then a else b

/-- Python `str()` on the values the identifier chain can produce;
in particular `str(float("nan"))` is the literal string `"nan"`. -/
def pyStr : PdVal → String
  | .pynone => "None"
  | .nan => "nan"
  | .str s => s
  | .num n => toString n
  | .datetime d s => "Timestamp(" ++ toString d ++ "," ++ toString s ++ ")"
  | .date d => "date(" ++ toString d ++ ")"

/-- One source row: an association list from column name to cell value.
A key that is present with an empty cell carries `.nan`, as pandas does. -/
abbrev Row := List (String × PdVal)

/-- `pandas.Series.get(key)`: the first value stored at the key,
Python `None` when the key is absent. -/
def rowGet : Row → String → PdVal
  | [], _ => .pynone
  | p :: t, k => if p.1 = k then p.2 else rowGet t k

/-- `get_val` (src/APR.py:70-72): `None` when the cell is NA, else the cell. -/
def getVal (r : Row) (k : String) : PdVal :=
  let v := rowGet r k
  if pdIsna v then .pynone else v

/-- The `Dossier Technique_lines` table: its column set and its rows. -/
structure LinesDF where
  cols : List String
  rows : List Row
deriving DecidableEq, Repr

/-- The two source tables read from the OCR workbook. -/
structure SourceWorkbook where
  gen : List Row
  lines : LinesDF
deriving DecidableEq, Repr

/-- The worksheet content: a write log, most recent write first; reads
take the most recent write at a coordinate (initial content = template). -/
abbrev Ws := List (Coord × PdVal)

/-- The loaded template: the sheet `Fiche de contrôle` and its merged ranges. -/
structure Template where
  ws : Ws
  ranges : List CellRange
deriving DecidableEq, Repr

/-- `ws[coord] = value`: a new write shadows earlier content at the coordinate. -/
def setCell (ws : Ws) (c : Coord) (v : PdVal) : Ws := (c, v) :: ws

/-- Read a cell: the most recent write at the coordinate, if any. -/
def getCell : Ws → Coord → Option PdVal
  | [], _ => none
  | p :: t, c => if p.1 = c then some p.2 else getCell t c

/-- `write_into_merged` (src/APR.py:28-40): skip a Python `None` value;
otherwise scan the merged ranges for the first one containing the
coordinate and redirect the write to its top-left anchor; write to the
coordinate itself when no range contains it. -/
def writeIntoMerged (ranges : List CellRange) (ws : Ws) (coord : Coord) (value : PdVal) : Ws :=
  if value = .pynone then ws
  else
    match ranges.find? (fun r => r.containsC coord) with
    | some rng => setCell ws ⟨rng.min_col, rng.min_row⟩ value
    | none => setCell ws coord value

/-- The coordinate a scalar write through `write_into_merged` lands on:
the anchor of the first containing merged range, else the input coordinate.
This is the `resolve` operation of the specification. -/
def resolveCoord (ranges : List CellRange) (c : Coord) : Coord :=
  match ranges.find? (fun r => r.containsC c) with
  | some rng => ⟨rng.min_col, rng.min_row⟩
  | none => c

/-- Failures `populate_fiche` can raise: the explicit `ValueError` on an
empty general sheet, the `IndexError` of `iloc` on a bad row index, and
the parse error `pd.to_datetime` raises on an unconvertible value. -/
inductive PopError where
  | emptyGeneral
  | rowIndexOutOfRange
  | dateParseError
deriving DecidableEq, Repr

/-- `pd.to_datetime`, modelled from the library contract: datetime-like
values convert (a timestamp keeps its day and time-of-day, a date maps
to midnight); any other present scalar (for example an arbitrary string)
fails to parse, which raises in pandas under the default `errors` mode. -/
def pdToDatetime : PdVal → Option (Int × Nat)
  | .datetime day secs => some (day, secs)
  | .date day => some (day, 0)
  | _ => none

/-- The `X2` entry of the assignment dict (src/APR.py:80-81):
`pd.to_datetime(get_val("Date de création")).date()` when the value is
not NA, else `None`; a present value that fails to convert raises. -/
def dateCell (row : Row) : Except PopError PdVal :=
  let v := getVal row "Date de création"
  if pdNotna v then
    match pdToDatetime v with
    | some ds => .ok (.date ds.1)
    | none => .error .dateParseError
  else .ok .pynone

/-- The `assignments` dict (src/APR.py:75-88), in insertion order:
`M1, T1, K2, T2, X2, X4, X5, X6, X7, X8`.  Building it evaluates the
`X2` entry, so a date parse failure raises before any write. -/
def headerAssignments (row : Row) : Except PopError (List (Coord × PdVal)) :=
  match dateCell row with
  | .error e => .error e
  | .ok x2 =>
    .ok [ (⟨13, 1⟩, getVal row "Nom du client"),
          (⟨20, 1⟩, getVal row "Numéro d\x27 OF"),
          (⟨11, 2⟩, getVal row "Nom du plan"),
          (⟨20, 2⟩, getVal row "Indice plan"),
          (⟨24, 2⟩, x2),
          (⟨24, 4⟩, getVal row "Matière"),
          (⟨24, 5⟩, getVal row "Couleur"),
          (⟨24, 6⟩, getVal row "Tolérance Générale"),
          (⟨24, 7⟩, getVal row "RA mini"),
          (⟨24, 8⟩, getVal row "Cassage Angles Vifs") ]

/-- `plan_cells = ["G9","I9","K9","M9","O9","Q9"]`. -/
def planCells : List Coord := [⟨7, 9⟩, ⟨9, 9⟩, ⟨11, 9⟩, ⟨13, 9⟩, ⟨15, 9⟩, ⟨17, 9⟩]

/-- `plus_cells = ["G10","I10","K10","M10","O10","Q10"]`. -/
def plusCells : List Coord := [⟨7, 10⟩, ⟨9, 10⟩, ⟨11, 10⟩, ⟨13, 10⟩, ⟨15, 10⟩, ⟨17, 10⟩]

/-- `minus_cells = ["G11","I11","K11","M11","O11","Q11"]`. -/
def minusCells : List Coord := [⟨7, 11⟩, ⟨9, 11⟩, ⟨11, 11⟩, ⟨13, 11⟩, ⟨15, 11⟩, ⟨17, 11⟩]

/-- `moyenne_cells = ["G12","I12","K12","M12","O12","Q12"]`. -/
def moyenneCells : List Coord := [⟨7, 12⟩, ⟨9, 12⟩, ⟨11, 12⟩, ⟨13, 12⟩, ⟨15, 12⟩, ⟨17, 12⟩]

/-- `tools_cells = ["F14","H14","J14","L14","N14","P14"]`. -/
def toolsCells : List Coord := [⟨6, 14⟩, ⟨8, 14⟩, ⟨10, 14⟩, ⟨12, 14⟩, ⟨14, 14⟩, ⟨16, 14⟩]

/-- The `col_map` normalization table (src/APR.py:101-107). -/
def colMap : List (String × String) :=
  [("Côtes PLAN", "cote"),
   ("Tolérance supérieure", "plus"),
   ("Tolérance inférieure", "minus"),
   ("Côtes MOYENNES", "moy"),
   ("Outil de mesure", "outil")]

/-- `keep = [c for c in col_map if c in df_lines.columns]` (src/APR.py:108). -/
def keepCols (lines : LinesDF) : List String :=
  (colMap.map Prod.fst).filter (fun c => decide (c ∈ lines.cols))

/-- `dfL.iloc[i].get(key, None)` after the `keep`/`rename` step: Python
`None` when the original column is absent from the table, else the cell
of row `i` at that column. -/
def dfLGet (lines : LinesDF) (i : Nat) (orig : String) : PdVal :=
  if orig ∈ lines.cols then rowGet (lines.rows.getD i []) orig else .pynone

/-- `if pd.notna(v): ws[c] = v` — one conditional direct grid write. -/
def condWrite (ws : Ws) (c : Coord) (v : PdVal) : Ws :=
  if pdNotna v then setCell ws c v else ws

/-- Default coordinate for out-of-range list access (never reached for
slot indices below the capacity 6). -/
def zC : Coord := ⟨0, 0⟩

/-- The body of the slot loop (src/APR.py:112-122): the five conditional
writes for slot `i`, in source order `cote, plus, minus, moy, outil`. -/
def writeSlot (lines : LinesDF) (ws : Ws) (i : Nat) : Ws :=
  condWrite (condWrite (condWrite (condWrite (condWrite ws
    (planCells.getD i zC) (dfLGet lines i "Côtes PLAN"))
    (plusCells.getD i zC) (dfLGet lines i "Tolérance supérieure"))
    (minusCells.getD i zC) (dfLGet lines i "Tolérance inférieure"))
    (moyenneCells.getD i zC) (dfLGet lines i "Côtes MOYENNES"))
    (toolsCells.getD i zC) (dfLGet lines i "Outil de mesure")

/-- The grid-population block (src/APR.py:108-122): nothing happens when
`keep` is empty; otherwise the slot loop runs for
`i in range(min(max_plan, len(dfL)))`. -/
def applyLineWrites (lines : LinesDF) (maxPlan : Nat) (ws : Ws) : Ws :=
  if keepCols lines = [] then ws
  else (List.range (min maxPlan lines.rows.length)).foldl (writeSlot lines) ws

/-- `populate_fiche` (src/APR.py:42-127), abstracted over the loaded
source tables and loaded template.  Mirrors the source order: emptiness
check on the general sheet, `iloc[row_index]`, file-name computation
from the raw `row.get` chain, the assignment dict (whose construction
can raise on a bad date), the scalar writes through
`write_into_merged`, then the grid writes. -/
def populateFiche (src : SourceWorkbook) (tmpl : Template)
    (rowIndex : Nat := 0) (maxPlan : Nat := 6) :
    Except PopError (Ws × String) :=
  if src.gen.isEmpty then .error .emptyGeneral
  else
    match src.gen[rowIndex]? with
    | none => .error .rowIndexOutOfRange
    | some row =>
      let numOf := pyStr (pyOr (rowGet row "Numéro d\x27 OF")
        (pyOr (rowGet row "Koncile ID") (.str "")))
      let fileName := "Fiche de Contrôle - OF n° " ++ numOf ++ ".xlsx"
      match headerAssignments row with
      | .error e => .error e
      | .ok assigns =>
        let ws1 := assigns.foldl (fun w cv => writeIntoMerged tmpl.ranges w cv.1 cv.2) tmpl.ws
        let ws2 := applyLineWrites src.lines maxPlan ws1
        .ok (ws2, fileName)

/-- The five grid attributes: source column name paired with the slot
coordinate list it is written to. -/
def attrPairs : List (String × List Coord) :=
  [("Côtes PLAN", planCells),
   ("Tolérance supérieure", plusCells),
   ("Tolérance inférieure", minusCells),
   ("Côtes MOYENNES", moyenneCells),
   ("Outil de mesure", toolsCells)]

/-! ### Basic lemmas about the write log -/

lemma getCell_setCell (ws : Ws) (c : Coord) (v : PdVal) (t : Coord) :
    getCell (setCell ws c v) t = if c = t then some v else getCell ws t := rfl

lemma getCell_condWrite_ne (ws : Ws) (c : Coord) (v : PdVal) (t : Coord) (h : c ≠ t) :
    getCell (condWrite ws c v) t = getCell ws t := by
  unfold condWrite
  split
  · rw [getCell_setCell, if_neg h]
  · rfl

lemma getCell_condWrite_self (ws : Ws) (c : Coord) (v : PdVal) :
    getCell (condWrite ws c v) c =
      if pdNotna v = true then some v else getCell ws c := by
  unfold condWrite
  split
  · rw [getCell_setCell, if_pos rfl]
  · rfl

/-- The complement of the five coordinates the slot-`j` loop body writes. -/
def notSlotCell (t : Coord) (j : Nat) : Prop :=
  t ≠ planCells.getD j zC ∧ t ≠ plusCells.getD j zC ∧ t ≠ minusCells.getD j zC ∧
  t ≠ moyenneCells.getD j zC ∧ t ≠ toolsCells.getD j zC

instance (t : Coord) (j : Nat) : Decidable (notSlotCell t j) := by
  unfold notSlotCell; infer_instance

lemma getCell_writeSlot_ne (lines : LinesDF) (ws : Ws) (i : Nat) (t : Coord)
    (h : notSlotCell t i) :
    getCell (writeSlot lines ws i) t = getCell ws t := by
  obtain ⟨h1, h2, h3, h4, h5⟩ := h
  unfold writeSlot
  rw [getCell_condWrite_ne _ _ _ _ (Ne.symm h5), getCell_condWrite_ne _ _ _ _ (Ne.symm h4),
    getCell_condWrite_ne _ _ _ _ (Ne.symm h3), getCell_condWrite_ne _ _ _ _ (Ne.symm h2),
    getCell_condWrite_ne _ _ _ _ (Ne.symm h1)]

lemma slot_cells_distinct : ∀ i, i < 6 →
    planCells.getD i zC ≠ plusCells.getD i zC ∧
    planCells.getD i zC ≠ minusCells.getD i zC ∧
    planCells.getD i zC ≠ moyenneCells.getD i zC ∧
    planCells.getD i zC ≠ toolsCells.getD i zC ∧
    plusCells.getD i zC ≠ minusCells.getD i zC ∧
    plusCells.getD i zC ≠ moyenneCells.getD i zC ∧
    plusCells.getD i zC ≠ toolsCells.getD i zC ∧
    minusCells.getD i zC ≠ moyenneCells.getD i zC ∧
    minusCells.getD i zC ≠ toolsCells.getD i zC ∧
    moyenneCells.getD i zC ≠ toolsCells.getD i zC := by decide

lemma slot_cells_cross : ∀ i, i < 6 → ∀ j, j < 6 → j ≠ i →
    notSlotCell (planCells.getD i zC) j ∧ notSlotCell (plusCells.getD i zC) j ∧
    notSlotCell (minusCells.getD i zC) j ∧ notSlotCell (moyenneCells.getD i zC) j ∧
    notSlotCell (toolsCells.getD i zC) j := by decide

lemma getCell_writeSlot_cote (lines : LinesDF) (ws : Ws) (i : Nat) (hi : i < 6) :
    getCell (writeSlot lines ws i) (planCells.getD i zC) =
      if pdNotna (dfLGet lines i "Côtes PLAN") = true
      then some (dfLGet lines i "Côtes PLAN")
      else getCell ws (planCells.getD i zC) := by
  obtain ⟨d1, d2, d3, d4, _⟩ := slot_cells_distinct i hi
  unfold writeSlot
  rw [getCell_condWrite_ne _ _ _ _ (Ne.symm d4), getCell_condWrite_ne _ _ _ _ (Ne.symm d3),
    getCell_condWrite_ne _ _ _ _ (Ne.symm d2), getCell_condWrite_ne _ _ _ _ (Ne.symm d1),
    getCell_condWrite_self]

lemma getCell_writeSlot_plus (lines : LinesDF) (ws : Ws) (i : Nat) (hi : i < 6) :
    getCell (writeSlot lines ws i) (plusCells.getD i zC) =
      if pdNotna (dfLGet lines i "Tolérance supérieure") = true
      then some (dfLGet lines i "Tolérance supérieure")
      else getCell ws (plusCells.getD i zC) := by
  obtain ⟨d1, _, _, _, d5, d6, d7, _, _, _⟩ := slot_cells_distinct i hi
  unfold writeSlot
  rw [getCell_condWrite_ne _ _ _ _ (Ne.symm d7), getCell_condWrite_ne _ _ _ _ (Ne.symm d6),
    getCell_condWrite_ne _ _ _ _ (Ne.symm d5), getCell_condWrite_self,
    getCell_condWrite_ne _ _ _ _ d1]

lemma getCell_writeSlot_minus (lines : LinesDF) (ws : Ws) (i : Nat) (hi : i < 6) :
    getCell (writeSlot lines ws i) (minusCells.getD i zC) =
      if pdNotna (dfLGet lines i "Tolérance inférieure") = true
      then some (dfLGet lines i "Tolérance inférieure")
      else getCell ws (minusCells.getD i zC) := by
  obtain ⟨_, d2, _, _, d5, _, _, d8, d9, _⟩ := slot_cells_distinct i hi
  unfold writeSlot
  rw [getCell_condWrite_ne _ _ _ _ (Ne.symm d9), getCell_condWrite_ne _ _ _ _ (Ne.symm d8),
    getCell_condWrite_self, getCell_condWrite_ne _ _ _ _ d5,
    getCell_condWrite_ne _ _ _ _ d2]

lemma getCell_writeSlot_moy (lines : LinesDF) (ws : Ws) (i : Nat) (hi : i < 6) :
    getCell (writeSlot lines ws i) (moyenneCells.getD i zC) =
      if pdNotna (dfLGet lines i "Côtes MOYENNES") = true
      then some (dfLGet lines i "Côtes MOYENNES")
      else getCell ws (moyenneCells.getD i zC) := by
  obtain ⟨_, _, d3, _, _, d6, _, d8, _, d10⟩ := slot_cells_distinct i hi
  unfold writeSlot
  rw [getCell_condWrite_ne _ _ _ _ (Ne.symm d10), getCell_condWrite_self,
    getCell_condWrite_ne _ _ _ _ d8, getCell_condWrite_ne _ _ _ _ d6,
    getCell_condWrite_ne _ _ _ _ d3]

lemma getCell_writeSlot_outil (lines : LinesDF) (ws : Ws) (i : Nat) (hi : i < 6) :
    getCell (writeSlot lines ws i) (toolsCells.getD i zC) =
      if pdNotna (dfLGet lines i "Outil de mesure") = true
      then some (dfLGet lines i "Outil de mesure")
      else getCell ws (toolsCells.getD i zC) := by
  obtain ⟨_, _, _, d4, _, _, d7, _, d9, d10⟩ := slot_cells_distinct i hi
  unfold writeSlot
  rw [getCell_condWrite_self, getCell_condWrite_ne _ _ _ _ d10,
    getCell_condWrite_ne _ _ _ _ d9, getCell_condWrite_ne _ _ _ _ d7,
    getCell_condWrite_ne _ _ _ _ d4]

/-! ### The slot loop -/

lemma grid_fold_getCell (lines : LinesDF) (colN : String) (cells : List Coord)
    (hframe : ∀ i j, i < 6 → j < 6 → j ≠ i → notSlotCell (cells.getD i zC) j)
    (hself : ∀ (ws : Ws) (i : Nat), i < 6 →
      getCell (writeSlot lines ws i) (cells.getD i zC) =
        if pdNotna (dfLGet lines i colN) = true then some (dfLGet lines i colN)
        else getCell ws (cells.getD i zC)) :
    ∀ (m : Nat), m ≤ 6 → ∀ (ws : Ws) (i : Nat), i < 6 →
      getCell ((List.range m).foldl (writeSlot lines) ws) (cells.getD i zC) =
        if i < m ∧ pdNotna (dfLGet lines i colN) = true
        then some (dfLGet lines i colN)
        else getCell ws (cells.getD i zC) := by
  intro m
  induction m with
  | zero => intro _ ws i hi; simp
  | succ m ih =>
    intro hm ws i hi
    rw [List.range_succ, List.foldl_append, List.foldl_cons, List.foldl_nil]
    by_cases him : i = m
    · subst him
      rw [hself _ i hi, ih (by omega) ws i hi]
      by_cases hna : pdNotna (dfLGet lines i colN) = true
      · simp [hna]
      · simp [hna]
    · have hne : notSlotCell (cells.getD i zC) m :=
        hframe i m hi (by omega) (fun h => him h.symm)
      rw [getCell_writeSlot_ne _ _ _ _ hne, ih (by omega) ws i hi]
      have hiff : i < m + 1 ↔ i < m := by omega
      simp only [hiff]

lemma applyLineWrites_getCell (lines : LinesDF) (colN : String) (cells : List Coord)
    (hkey : colN ∈ colMap.map Prod.fst)
    (hframe : ∀ i j, i < 6 → j < 6 → j ≠ i → notSlotCell (cells.getD i zC) j)
    (hself : ∀ (ws : Ws) (i : Nat), i < 6 →
      getCell (writeSlot lines ws i) (cells.getD i zC) =
        if pdNotna (dfLGet lines i colN) = true then some (dfLGet lines i colN)
        else getCell ws (cells.getD i zC))
    (maxPlan : Nat) (hmp : maxPlan ≤ 6) (ws : Ws) (i : Nat) (hi : i < 6) :
    getCell (applyLineWrites lines maxPlan ws) (cells.getD i zC) =
      if i < min maxPlan lines.rows.length ∧ pdNotna (dfLGet lines i colN) = true
      then some (dfLGet lines i colN)
      else getCell ws (cells.getD i zC) := by
  unfold applyLineWrites
  split
  · rename_i hkeep
    have habs : colN ∉ lines.cols := by
      intro hmem
      have hk : colN ∈ keepCols lines := by
        unfold keepCols
        rw [List.mem_filter]
        exact ⟨hkey, by simpa using hmem⟩
      rw [hkeep] at hk
      simp at hk
    have hval : dfLGet lines i colN = .pynone := by
      unfold dfLGet
      rw [if_neg habs]
    rw [hval]
    simp [pdNotna, pdIsna]
  · exact grid_fold_getCell lines colN cells hframe hself _ (by omega) ws i hi

lemma lowrow_notSlotCell (t : Coord) (ht : t.row ≤ 8) (j : Nat) (hj : j < 6) :
    notSlotCell t j := by
  have h9 : ∀ k, k < 6 → 9 ≤ (planCells.getD k zC).row ∧ 9 ≤ (plusCells.getD k zC).row ∧
      9 ≤ (minusCells.getD k zC).row ∧ 9 ≤ (moyenneCells.getD k zC).row ∧
      9 ≤ (toolsCells.getD k zC).row := by decide
  obtain ⟨a, b, c, d, e⟩ := h9 j hj
  exact ⟨fun h => by rw [h] at ht; omega, fun h => by rw [h] at ht; omega,
    fun h => by rw [h] at ht; omega, fun h => by rw [h] at ht; omega,
    fun h => by rw [h] at ht; omega⟩

lemma applyLineWrites_low (lines : LinesDF) (maxPlan : Nat) (hmp : maxPlan ≤ 6)
    (ws : Ws) (t : Coord) (ht : t.row ≤ 8) :
    getCell (applyLineWrites lines maxPlan ws) t = getCell ws t := by
  unfold applyLineWrites
  split
  · rfl
  · have key : ∀ m, m ≤ 6 → ∀ w : Ws,
        getCell ((List.range m).foldl (writeSlot lines) w) t = getCell w t := by
      intro m
      induction m with
      | zero => intro _ w; rfl
      | succ m ih =>
        intro hm w
        rw [List.range_succ, List.foldl_append, List.foldl_cons, List.foldl_nil,
          getCell_writeSlot_ne lines _ m t (lowrow_notSlotCell t ht m (by omega)),
          ih (by omega)]
    exact key _ (by omega) ws

/-! ### The header writes -/

lemma getCell_writeIntoMerged_low (ranges : List CellRange) (ws : Ws) (c : Coord)
    (v : PdVal) (t : Coord) (h : c.row < t.row) :
    getCell (writeIntoMerged ranges ws c v) t = getCell ws t := by
  unfold writeIntoMerged
  split
  · rfl
  · split
    · rename_i rng hfind
      have hp := List.find?_some hfind
      unfold CellRange.containsC at hp
      rw [decide_eq_true_eq] at hp
      obtain ⟨-, -, hr, -⟩ := hp
      rw [getCell_setCell, if_neg]
      intro he
      have : rng.min_row = t.row := congrArg Coord.row he
      omega
    · rw [getCell_setCell, if_neg]
      intro he
      have : c.row = t.row := congrArg Coord.row he
      omega

lemma headerFold_low (ranges : List CellRange) :
    ∀ (assigns : List (Coord × PdVal)) (ws : Ws) (t : Coord),
      (∀ cv ∈ assigns, cv.1.row < t.row) →
      getCell (assigns.foldl (fun w cv => writeIntoMerged ranges w cv.1 cv.2) ws) t
        = getCell ws t := by
  intro assigns
  induction assigns with
  | nil => intro ws t _; rfl
  | cons hd tl ih =>
    intro ws t hrows
    rw [List.foldl_cons, ih _ _ (fun cv hcv => hrows cv (List.mem_cons_of_mem _ hcv)),
      getCell_writeIntoMerged_low _ _ _ _ _ (hrows hd (List.mem_cons_self _ _))]

lemma headerAssignments_rows (row : Row) (assigns : List (Coord × PdVal))
    (h : headerAssignments row = .ok assigns) :
    ∀ cv ∈ assigns, cv.1.row ≤ 8 := by
  unfold headerAssignments at h
  split at h
  · exact absurd h (by simp)
  · rw [Except.ok.injEq] at h
    subst h
    intro cv hcv
    simp only [List.mem_cons, List.not_mem_nil, or_false] at hcv
    rcases hcv with rfl | rfl | rfl | rfl | rfl | rfl | rfl | rfl | rfl | rfl <;> simp

lemma getCell_writeIntoMerged_nil_ne (ws : Ws) (c : Coord) (v : PdVal) (t : Coord)
    (h : c ≠ t) :
    getCell (writeIntoMerged [] ws c v) t = getCell ws t := by
  unfold writeIntoMerged
  split
  · rfl
  · rw [List.find?_nil, getCell_setCell, if_neg h]

lemma getCell_writeIntoMerged_nil_self (ws : Ws) (c : Coord) (v : PdVal) :
    getCell (writeIntoMerged [] ws c v) c =
      if v = .pynone then getCell ws c else some v := by
  unfold writeIntoMerged
  split
  · rfl
  · rw [List.find?_nil, getCell_setCell, if_pos rfl]

lemma headerFold_nil_X2 (v1 v2 v3 v4 x2 v5 v6 v7 v8 v9 : PdVal) (ws : Ws) :
    getCell ([((⟨13, 1⟩ : Coord), v1), (⟨20, 1⟩, v2), (⟨11, 2⟩, v3), (⟨20, 2⟩, v4),
        (⟨24, 2⟩, x2), (⟨24, 4⟩, v5), (⟨24, 5⟩, v6), (⟨24, 6⟩, v7), (⟨24, 7⟩, v8),
        (⟨24, 8⟩, v9)].foldl
        (fun w cv => writeIntoMerged [] w cv.1 cv.2) ws) ⟨24, 2⟩ =
      if x2 = .pynone then getCell ws ⟨24, 2⟩ else some x2 := by
  simp only [List.foldl_cons, List.foldl_nil]
  rw [getCell_writeIntoMerged_nil_ne _ _ _ _ (by decide),
    getCell_writeIntoMerged_nil_ne _ _ _ _ (by decide),
    getCell_writeIntoMerged_nil_ne _ _ _ _ (by decide),
    getCell_writeIntoMerged_nil_ne _ _ _ _ (by decide),
    getCell_writeIntoMerged_nil_ne _ _ _ _ (by decide),
    getCell_writeIntoMerged_nil_self,
    getCell_writeIntoMerged_nil_ne _ _ _ _ (by decide),
    getCell_writeIntoMerged_nil_ne _ _ _ _ (by decide),
    getCell_writeIntoMerged_nil_ne _ _ _ _ (by decide),
    getCell_writeIntoMerged_nil_ne _ _ _ _ (by decide)]

/-! ### Inverting a successful run -/

lemma populateFiche_ok_inv (src : SourceWorkbook) (tmpl : Template)
    (rowIndex maxPlan : Nat) (ws2 : Ws) (name : String)
    (h : populateFiche src tmpl rowIndex maxPlan = .ok (ws2, name)) :
    ∃ row assigns, src.gen[rowIndex]? = some row ∧
      headerAssignments row = .ok assigns ∧
      name = "Fiche de Contrôle - OF n° " ++
        pyStr (pyOr (rowGet row "Numéro d\x27 OF")
          (pyOr (rowGet row "Koncile ID") (.str ""))) ++ ".xlsx" ∧
      ws2 = applyLineWrites src.lines maxPlan
        (assigns.foldl (fun w cv => writeIntoMerged tmpl.ranges w cv.1 cv.2) tmpl.ws) := by
  unfold populateFiche at h
  split at h
  · exact absurd h (by simp)
  · split at h
    · exact absurd h (by simp)
    · rename_i row hrow
      split at h
      · exact absurd h (by simp)
      · rename_i assigns hassigns
        rw [Except.ok.injEq, Prod.mk.injEq] at h
        exact ⟨row, assigns, hrow, hassigns, h.2.symm, h.1.symm⟩

/-- Joint description of the grid region of the output sheet: the value a
grid cell holds after a run, for every slot index below the capacity 6 and
every one of the five attributes. -/
lemma populate_grid_master (lines : LinesDF) (maxPlan : Nat) (hmp : maxPlan ≤ 6)
    (ranges : List CellRange) (assigns : List (Coord × PdVal))
    (hrows : ∀ cv ∈ assigns, cv.1.row ≤ 8) (tws : Ws)
    (i : Nat) (hi : i < 6) (colN : String) (cells : List Coord)
    (hattr : (colN, cells) ∈ attrPairs) :
    getCell (applyLineWrites lines maxPlan
        (assigns.foldl (fun w cv => writeIntoMerged ranges w cv.1 cv.2) tws))
        (cells.getD i zC) =
      if i < min maxPlan lines.rows.length ∧ pdNotna (dfLGet lines i colN) = true
      then some (dfLGet lines i colN)
      else getCell tws (cells.getD i zC) := by
  simp only [attrPairs, List.mem_cons, List.not_mem_nil, or_false, Prod.mk.injEq] at hattr
  rcases hattr with ⟨rfl, rfl⟩ | ⟨rfl, rfl⟩ | ⟨rfl, rfl⟩ | ⟨rfl, rfl⟩ | ⟨rfl, rfl⟩
  · have h9 : 9 ≤ (planCells.getD i zC).row := by
      have hr : ∀ k, k < 6 → 9 ≤ (planCells.getD k zC).row := by decide
      exact hr i hi
    have hdr := headerFold_low ranges assigns tws (planCells.getD i zC)
      (fun cv hcv => by have := hrows cv hcv; omega)
    rw [applyLineWrites_getCell lines "Côtes PLAN" planCells (by decide)
      (fun a b ha hb hne => (slot_cells_cross a ha b hb hne).1)
      (fun w a ha => getCell_writeSlot_cote lines w a ha) maxPlan hmp _ i hi, hdr]
  · have h9 : 9 ≤ (plusCells.getD i zC).row := by
      have hr : ∀ k, k < 6 → 9 ≤ (plusCells.getD k zC).row := by decide
      exact hr i hi
    have hdr := headerFold_low ranges assigns tws (plusCells.getD i zC)
      (fun cv hcv => by have := hrows cv hcv; omega)
    rw [applyLineWrites_getCell lines "Tolérance supérieure" plusCells (by decide)
      (fun a b ha hb hne => (slot_cells_cross a ha b hb hne).2.1)
      (fun w a ha => getCell_writeSlot_plus lines w a ha) maxPlan hmp _ i hi, hdr]
  · have h9 : 9 ≤ (minusCells.getD i zC).row := by
      have hr : ∀ k, k < 6 → 9 ≤ (minusCells.getD k zC).row := by decide
      exact hr i hi
    have hdr := headerFold_low ranges assigns tws (minusCells.getD i zC)
      (fun cv hcv => by have := hrows cv hcv; omega)
    rw [applyLineWrites_getCell lines "Tolérance inférieure" minusCells (by decide)
      (fun a b ha hb hne => (slot_cells_cross a ha b hb hne).2.2.1)
      (fun w a ha => getCell_writeSlot_minus lines w a ha) maxPlan hmp _ i hi, hdr]
  · have h9 : 9 ≤ (moyenneCells.getD i zC).row := by
      have hr : ∀ k, k < 6 → 9 ≤ (moyenneCells.getD k zC).row := by decide
      exact hr i hi
    have hdr := headerFold_low ranges assigns tws (moyenneCells.getD i zC)
      (fun cv hcv => by have := hrows cv hcv; omega)
    rw [applyLineWrites_getCell lines "Côtes MOYENNES" moyenneCells (by decide)
      (fun a b ha hb hne => (slot_cells_cross a ha b hb hne).2.2.2.1)
      (fun w a ha => getCell_writeSlot_moy lines w a ha) maxPlan hmp _ i hi, hdr]
  · have h9 : 9 ≤ (toolsCells.getD i zC).row := by
      have hr : ∀ k, k < 6 → 9 ≤ (toolsCells.getD k zC).row := by decide
      exact hr i hi
    have hdr := headerFold_low ranges assigns tws (toolsCells.getD i zC)
      (fun cv hcv => by have := hrows cv hcv; omega)
    rw [applyLineWrites_getCell lines "Outil de mesure" toolsCells (by decide)
      (fun a b ha hb hne => (slot_cells_cross a ha b hb hne).2.2.2.2)
      (fun w a ha => getCell_writeSlot_outil lines w a ha) maxPlan hmp _ i hi, hdr]

/-! ### Concrete data for witnesses and counterexamples -/

/-- An empty template sheet with no merged ranges. -/
def tmpl0 : Template := { ws := [], ranges := [] }

def srcEmptyGen : SourceWorkbook := { gen := [], lines := { cols := [], rows := [] } }

def rowK : Row := [("Koncile ID", PdVal.str "K9")]

def srcK : SourceWorkbook := { gen := [rowK], lines := { cols := [], rows := [] } }

def rowBadDate : Row := [("Date de création", PdVal.str "pas une date")]

def srcBadDate : SourceWorkbook :=
  { gen := [rowBadDate], lines := { cols := [], rows := [] } }

def rowZeroOF : Row := [("Numéro d\x27 OF", PdVal.num 0), ("Koncile ID", PdVal.str "K123")]

def srcZeroOF : SourceWorkbook :=
  { gen := [rowZeroOF], lines := { cols := [], rows := [] } }

def rowNanOF : Row := [("Numéro d\x27 OF", PdVal.nan)]

def srcNanOF : SourceWorkbook := { gen := [rowNanOF], lines := { cols := [], rows := [] } }

def rowDate : Row := [("Date de création", PdVal.datetime 739000 3600)]

def srcDate : SourceWorkbook := { gen := [rowDate], lines := { cols := [], rows := [] } }

def linesW5 : LinesDF :=
  { cols := ["Côtes PLAN", "Outil de mesure"],
    rows := [[("Côtes PLAN", PdVal.num 10), ("Outil de mesure", PdVal.str "pied")],
             [("Côtes PLAN", PdVal.num 20)]] }

def srcW5 : SourceWorkbook := { gen := [[]], lines := linesW5 }

def wsW5 : Ws :=
  [(⟨9, 9⟩, PdVal.num 20), (⟨6, 14⟩, PdVal.str "pied"), (⟨7, 9⟩, PdVal.num 10)]

def linesW6 : LinesDF :=
  { cols := ["Côtes PLAN", "Tolérance supérieure", "Tolérance inférieure",
             "Côtes MOYENNES", "Outil de mesure"],
    rows := [[("Côtes PLAN", PdVal.num 12), ("Tolérance supérieure", PdVal.num 1),
              ("Tolérance inférieure", PdVal.num (-1)), ("Côtes MOYENNES", PdVal.num 12),
              ("Outil de mesure", PdVal.nan)]] }

def srcW6 : SourceWorkbook := { gen := [[]], lines := linesW6 }

def wsW6 : Ws :=
  [(⟨7, 12⟩, PdVal.num 12), (⟨7, 11⟩, PdVal.num (-1)),
   (⟨7, 10⟩, PdVal.num 1), (⟨7, 9⟩, PdVal.num 12)]

def linesW7 : LinesDF :=
  { cols := ["Côtes PLAN"],
    rows := [[("Côtes PLAN", PdVal.num 7)], [("Côtes PLAN", PdVal.num 8)]] }

def srcW7 : SourceWorkbook := { gen := [[]], lines := linesW7 }

def wsW7 : Ws := [(⟨9, 9⟩, PdVal.num 8), (⟨7, 9⟩, PdVal.num 7)]

def wRange : CellRange := ⟨2, 2, 4, 5⟩

/-! ### Claim C1 — merged-region resolution -/

/-- C1: a scalar write through `write_into_merged` lands on the top-left
anchor of the (unique) declared merged region containing the coordinate,
and on the input coordinate itself when the coordinate lies in no region. -/
theorem writeIntoMerged_resolution (ranges : List CellRange) (ws : Ws) (c : Coord)
    (v : PdVal) (hv : v ≠ PdVal.pynone) :
    ((∀ r ∈ ranges, r.containsC c = false) →
      writeIntoMerged ranges ws c v = setCell ws c v)
  ∧ (∀ rng ∈ ranges, rng.containsC c = true →
      (∀ r ∈ ranges, r.containsC c = true → r = rng) →
      writeIntoMerged ranges ws c v = setCell ws ⟨rng.min_col, rng.min_row⟩ v) := by
  constructor
  · intro hnone
    unfold writeIntoMerged
    rw [if_neg hv,
      List.find?_eq_none.mpr (fun x hx => by rw [hnone x hx]; simp)]
  · intro rng hmem hc huniq
    unfold writeIntoMerged
    rw [if_neg hv]
    have hsome : (ranges.find? fun r => r.containsC c).isSome := by
      rw [List.find?_isSome]
      exact ⟨rng, hmem, hc⟩
    obtain ⟨a, ha⟩ := Option.isSome_iff_exists.mp hsome
    have hpa : a.containsC c = true := by
      have hb := List.find?_some ha
      simpa using hb
    have hamem : a ∈ ranges := List.mem_of_find?_eq_some ha
    rw [ha, huniq a hamem hpa]

/-- C1 witness: a write inside the range `B2:D5` lands on its anchor `B2`;
a write at a coordinate outside every range lands in place. -/
theorem writeIntoMerged_resolution_witness :
    writeIntoMerged [wRange] [] ⟨3, 4⟩ (PdVal.num 7) = setCell [] ⟨2, 2⟩ (PdVal.num 7) ∧
    writeIntoMerged [wRange] [] ⟨9, 9⟩ (PdVal.num 7) = setCell [] ⟨9, 9⟩ (PdVal.num 7) :=
  ⟨(writeIntoMerged_resolution [wRange] [] ⟨3, 4⟩ (PdVal.num 7) (by decide)).2 wRange
      (by decide) (by decide) (by decide),
   (writeIntoMerged_resolution [wRange] [] ⟨9, 9⟩ (PdVal.num 7) (by decide)).1 (by decide)⟩

/-! ### Claim C2 — empty general sheet -/

/-- C2: an empty general table makes `populate_fiche` fail immediately with
the missing-required-data error; the run produces no document and performs
no write (in the source the check precedes even the template load). -/
theorem populateFiche_empty_general (src : SourceWorkbook) (tmpl : Template)
    (rowIndex maxPlan : Nat) (h : src.gen = []) :
    populateFiche src tmpl rowIndex maxPlan = .error .emptyGeneral := by
  unfold populateFiche
  rw [if_pos (by rw [h]; rfl)]

/-- C2 witness. -/
theorem populateFiche_empty_general_witness :
    populateFiche srcEmptyGen tmpl0 0 6 = .error .emptyGeneral :=
  populateFiche_empty_general srcEmptyGen tmpl0 0 6 rfl

/-! ### Claim C3 — unparsable creation date -/

/-- C3 counterexample: a present but unconvertible creation-date value makes
`populate_fiche` raise the date parse error instead of skipping the cell and
completing normally; the failure propagates to the caller. -/
theorem dateParse_counterexample :
    populateFiche srcBadDate tmpl0 0 6 = .error .dateParseError := rfl

/-- C3 amended: a creation-date value that is present (not NA) but fails
date conversion makes `populate_fiche` raise the conversion error, which
propagates out; only NA date values are skipped silently. -/
theorem populateFiche_dateParse_raises (src : SourceWorkbook) (tmpl : Template)
    (rowIndex maxPlan : Nat) (row : Row)
    (hrow : src.gen[rowIndex]? = some row)
    (hna : pdNotna (getVal row "Date de création") = true)
    (hconv : pdToDatetime (getVal row "Date de création") = none) :
    populateFiche src tmpl rowIndex maxPlan = .error .dateParseError := by
  have hne : src.gen.isEmpty = false := by
    cases hg : src.gen with
    | nil => rw [hg] at hrow; simp at hrow
    | cons a t => rfl
  have hhdr : headerAssignments row = .error .dateParseError := by
    simp only [headerAssignments, dateCell, hna, hconv, if_true]
  simp [populateFiche, hne, hrow, hhdr]

/-- C3 amended witness. -/
theorem populateFiche_dateParse_raises_witness :
    populateFiche srcBadDate tmpl0 0 6 = .error .dateParseError :=
  populateFiche_dateParse_raises srcBadDate tmpl0 0 6 rowBadDate rfl rfl rfl

/-! ### Claim C4 — display-name fallback -/

/-- C4 counterexample: with work-order number `0` — a present value that is
neither null nor empty — the file name uses the Koncile ID fallback instead
of the work-order number. -/
theorem fileName_zero_counterexample :
    populateFiche srcZeroOF tmpl0 0 6 =
      .ok ([(⟨20, 1⟩, PdVal.num 0)], "Fiche de Contrôle - OF n° K123.xlsx") ∧
    "Fiche de Contrôle - OF n° K123.xlsx" ≠ "Fiche de Contrôle - OF n° 0.xlsx" :=
  ⟨rfl, by decide⟩

/-- C4 amended: the returned name is `"Fiche de Contrôle - OF n° {id}.xlsx"`
where the identifier is `str` of the work-order value when that value is
Python-truthy; the Koncile ID is used when the work-order value is falsy
(`None`/missing, `0`, empty string) and the Koncile value truthy; when both
are falsy the identifier is empty. -/
theorem fileName_fallback (src : SourceWorkbook) (tmpl : Template)
    (rowIndex maxPlan : Nat) (row : Row) (ws2 : Ws) (name : String)
    (hrow : src.gen[rowIndex]? = some row)
    (hok : populateFiche src tmpl rowIndex maxPlan = .ok (ws2, name)) :
    (pyTruthy (rowGet row "Numéro d\x27 OF") = true →
      name = "Fiche de Contrôle - OF n° " ++
        pyStr (rowGet row "Numéro d\x27 OF") ++ ".xlsx")
  ∧ (pyTruthy (rowGet row "Numéro d\x27 OF") = false →
      pyTruthy (rowGet row "Koncile ID") = true →
      name = "Fiche de Contrôle - OF n° " ++
        pyStr (rowGet row "Koncile ID") ++ ".xlsx")
  ∧ (pyTruthy (rowGet row "Numéro d\x27 OF") = false →
      pyTruthy (rowGet row "Koncile ID") = false →
      name = "Fiche de Contrôle - OF n° " ++ pyStr (PdVal.str "") ++ ".xlsx") := by
  obtain ⟨row2, assigns, hrow2, -, hname, -⟩ := populateFiche_ok_inv _ _ _ _ _ _ hok
  rw [hrow] at hrow2
  injection hrow2 with hre
  subst hre
  refine ⟨fun h1 => ?_, fun h1 h2 => ?_, fun h1 h2 => ?_⟩
  · rw [hname]; simp [pyOr, h1]
  · rw [hname]; simp [pyOr, h1, h2]
  · rw [hname]; simp [pyOr, h1, h2]

/-- C4 amended witness: absent work-order number, present Koncile ID. -/
theorem fileName_fallback_witness :
    "Fiche de Contrôle - OF n° K9.xlsx" =
      "Fiche de Contrôle - OF n° " ++ pyStr (rowGet rowK "Koncile ID") ++ ".xlsx" :=
  (fileName_fallback srcK tmpl0 0 6 rowK [] "Fiche de Contrôle - OF n° K9.xlsx"
    rfl rfl).2.1 rfl rfl

/-! ### Claim C5 — slot capacity clamp -/

/-- C5: with capacity `c ≤ 6` (the configured value is 6), a run populates
exactly the slots `i < min c n` of the measurement grid, slot `i` taking its
values from line record `i` (original order, subject to the per-value skip);
every slot from `min c n` up to 6 keeps its template content, so records
beyond the capacity are ignored. -/
theorem slot_capacity_clamp (src : SourceWorkbook) (tmpl : Template)
    (rowIndex c : Nat) (ws2 : Ws) (name : String) (hc : c ≤ 6)
    (hok : populateFiche src tmpl rowIndex c = .ok (ws2, name))
    (i : Nat) (hi : i < 6) (colN : String) (cells : List Coord)
    (hattr : (colN, cells) ∈ attrPairs) :
    getCell ws2 (cells.getD i zC) =
      if i < min c src.lines.rows.length ∧ pdNotna (dfLGet src.lines i colN) = true
      then some (dfLGet src.lines i colN)
      else getCell tmpl.ws (cells.getD i zC) := by
  obtain ⟨row, assigns, -, hassigns, -, hws⟩ := populateFiche_ok_inv _ _ _ _ _ _ hok
  subst hws
  exact populate_grid_master src.lines c hc tmpl.ranges assigns
    (headerAssignments_rows row assigns hassigns) tmpl.ws i hi colN cells hattr

/-- C5 witness: two line records, capacity 6, slot 0 of the dimension row. -/
theorem slot_capacity_clamp_witness :
    getCell wsW5 (planCells.getD 0 zC) =
      if 0 < min 6 srcW5.lines.rows.length ∧
          pdNotna (dfLGet srcW5.lines 0 "Côtes PLAN") = true
      then some (dfLGet srcW5.lines 0 "Côtes PLAN")
      else getCell tmpl0.ws (planCells.getD 0 zC) :=
  slot_capacity_clamp srcW5 tmpl0 0 6 wsW5 "Fiche de Contrôle - OF n° .xlsx"
    (by decide) rfl 0 (by decide) "Côtes PLAN" planCells (by decide)

/-! ### Claim C6 — skip-on-missing values -/

/-- C6: a Python `None` value produces no write at all through
`write_into_merged` (the scalar path), and a line record whose
measuring-tool value is NA still populates its dimension, upper/lower
tolerance and mean cells for that slot, while the tool cell of the slot
keeps the template content. -/
theorem skip_missing_fields (ranges : List CellRange) (ws : Ws) (c0 : Coord)
    (src : SourceWorkbook) (tmpl : Template) (rowIndex : Nat)
    (ws2 : Ws) (name : String) (i : Nat)
    (hok : populateFiche src tmpl rowIndex 6 = .ok (ws2, name))
    (hi : i < min 6 src.lines.rows.length)
    (htool : pdNotna (dfLGet src.lines i "Outil de mesure") = false)
    (hcote : pdNotna (dfLGet src.lines i "Côtes PLAN") = true)
    (hplus : pdNotna (dfLGet src.lines i "Tolérance supérieure") = true)
    (hminus : pdNotna (dfLGet src.lines i "Tolérance inférieure") = true)
    (hmoy : pdNotna (dfLGet src.lines i "Côtes MOYENNES") = true) :
    writeIntoMerged ranges ws c0 PdVal.pynone = ws
  ∧ getCell ws2 (toolsCells.getD i zC) = getCell tmpl.ws (toolsCells.getD i zC)
  ∧ getCell ws2 (planCells.getD i zC) = some (dfLGet src.lines i "Côtes PLAN")
  ∧ getCell ws2 (plusCells.getD i zC) = some (dfLGet src.lines i "Tolérance supérieure")
  ∧ getCell ws2 (minusCells.getD i zC) = some (dfLGet src.lines i "Tolérance inférieure")
  ∧ getCell ws2 (moyenneCells.getD i zC) = some (dfLGet src.lines i "Côtes MOYENNES") := by
  have hi6 : i < 6 := by omega
  obtain ⟨row, assigns, -, hassigns, -, hws⟩ := populateFiche_ok_inv _ _ _ _ _ _ hok
  subst hws
  have hrows := headerAssignments_rows row assigns hassigns
  refine ⟨by unfold writeIntoMerged; rw [if_pos rfl], ?_, ?_, ?_, ?_, ?_⟩
  · rw [populate_grid_master src.lines 6 (by omega) tmpl.ranges assigns hrows tmpl.ws
      i hi6 "Outil de mesure" toolsCells (by decide)]
    simp [htool]
  · rw [populate_grid_master src.lines 6 (by omega) tmpl.ranges assigns hrows tmpl.ws
      i hi6 "Côtes PLAN" planCells (by decide), if_pos ⟨hi, hcote⟩]
  · rw [populate_grid_master src.lines 6 (by omega) tmpl.ranges assigns hrows tmpl.ws
      i hi6 "Tolérance supérieure" plusCells (by decide), if_pos ⟨hi, hplus⟩]
  · rw [populate_grid_master src.lines 6 (by omega) tmpl.ranges assigns hrows tmpl.ws
      i hi6 "Tolérance inférieure" minusCells (by decide), if_pos ⟨hi, hminus⟩]
  · rw [populate_grid_master src.lines 6 (by omega) tmpl.ranges assigns hrows tmpl.ws
      i hi6 "Côtes MOYENNES" moyenneCells (by decide), if_pos ⟨hi, hmoy⟩]

/-- C6 witness: one line record with an NA tool value and the four other
attributes present. -/
theorem skip_missing_fields_witness :
    writeIntoMerged [] [] zC PdVal.pynone = ([] : Ws)
  ∧ getCell wsW6 (toolsCells.getD 0 zC) = getCell tmpl0.ws (toolsCells.getD 0 zC)
  ∧ getCell wsW6 (planCells.getD 0 zC) = some (dfLGet srcW6.lines 0 "Côtes PLAN")
  ∧ getCell wsW6 (plusCells.getD 0 zC) = some (dfLGet srcW6.lines 0 "Tolérance supérieure")
  ∧ getCell wsW6 (minusCells.getD 0 zC) = some (dfLGet srcW6.lines 0 "Tolérance inférieure")
  ∧ getCell wsW6 (moyenneCells.getD 0 zC) = some (dfLGet srcW6.lines 0 "Côtes MOYENNES") :=
  skip_missing_fields [] [] zC srcW6 tmpl0 0 wsW6 "Fiche de Contrôle - OF n° .xlsx" 0
    rfl (by decide) rfl rfl rfl rfl rfl

/-! ### Claim C7 — entirely absent column -/

/-- C7: when one of the five expected line columns is entirely absent from
the line table, that attribute's cell keeps the template content in every
slot (no write, no error), while every attribute whose value is present is
still written normally. -/
theorem missing_column_skipped (src : SourceWorkbook) (tmpl : Template)
    (rowIndex : Nat) (ws2 : Ws) (name : String) (colN : String) (cells : List Coord)
    (hok : populateFiche src tmpl rowIndex 6 = .ok (ws2, name))
    (hattr : (colN, cells) ∈ attrPairs)
    (habs : colN ∉ src.lines.cols) :
    (∀ i, i < 6 → getCell ws2 (cells.getD i zC) = getCell tmpl.ws (cells.getD i zC))
  ∧ (∀ colB cellsB, (colB, cellsB) ∈ attrPairs →
      ∀ i, i < min 6 src.lines.rows.length →
      pdNotna (dfLGet src.lines i colB) = true →
      getCell ws2 (cellsB.getD i zC) = some (dfLGet src.lines i colB)) := by
  obtain ⟨row, assigns, -, hassigns, -, hws⟩ := populateFiche_ok_inv _ _ _ _ _ _ hok
  subst hws
  have hrows := headerAssignments_rows row assigns hassigns
  constructor
  · intro i hi
    rw [populate_grid_master src.lines 6 (by omega) tmpl.ranges assigns hrows tmpl.ws
      i hi colN cells hattr]
    have hval : dfLGet src.lines i colN = .pynone := by
      unfold dfLGet
      rw [if_neg habs]
    rw [hval]
    simp [pdNotna, pdIsna]
  · intro colB cellsB hB i hile hna
    have hi6 : i < 6 := by omega
    rw [populate_grid_master src.lines 6 (by omega) tmpl.ranges assigns hrows tmpl.ws
      i hi6 colB cellsB hB, if_pos ⟨hile, hna⟩]

/-- C7 witness: the tool column is absent, so slot 0's tool cell keeps the
template content. -/
theorem missing_column_skipped_witness :
    getCell wsW7 (toolsCells.getD 0 zC) = getCell tmpl0.ws (toolsCells.getD 0 zC) :=
  (missing_column_skipped srcW7 tmpl0 0 wsW7 "Fiche de Contrôle - OF n° .xlsx"
    "Outil de mesure" toolsCells rfl (by decide) (by decide)).1 0 (by decide)

/-! ### Claim C8 — date truncation -/

/-- C8: a creation-date value that carries a time-of-day and converts is
written at day precision: the computed `X2` assignment is the `date` value
with the seconds discarded, and (for a template without merged ranges) the
date header cell `X2` holds exactly that date after the run. -/
theorem date_truncation (src : SourceWorkbook) (tmpl : Template)
    (rowIndex maxPlan : Nat) (row : Row) (day : Int) (secs : Nat)
    (ws2 : Ws) (name : String)
    (hrow : src.gen[rowIndex]? = some row)
    (hdate : getVal row "Date de création" = PdVal.datetime day secs)
    (hok : populateFiche src tmpl rowIndex maxPlan = .ok (ws2, name))
    (hnomerge : tmpl.ranges = []) (hmp : maxPlan ≤ 6) :
    dateCell row = .ok (PdVal.date day) ∧
    getCell ws2 ⟨24, 2⟩ = some (PdVal.date day) := by
  have hdc : dateCell row = .ok (PdVal.date day) := by
    simp only [dateCell, hdate]
    rfl
  refine ⟨hdc, ?_⟩
  obtain ⟨row2, assigns, hrow2, hassigns, -, hws⟩ := populateFiche_ok_inv _ _ _ _ _ _ hok
  rw [hrow] at hrow2
  injection hrow2 with hre
  subst hre
  simp only [headerAssignments, hdc] at hassigns
  rw [Except.ok.injEq] at hassigns
  subst hassigns
  subst hws
  rw [hnomerge, applyLineWrites_low src.lines maxPlan hmp _ ⟨24, 2⟩ (by decide),
    headerFold_nil_X2]
  simp

/-- C8 witness: a timestamp with a one-hour time-of-day is written as the
bare day. -/
theorem date_truncation_witness :
    dateCell rowDate = .ok (PdVal.date 739000) ∧
    getCell [((⟨24, 2⟩ : Coord), PdVal.date 739000)] ⟨24, 2⟩ = some (PdVal.date 739000) :=
  date_truncation srcDate tmpl0 0 6 rowDate 739000 3600
    [(⟨24, 2⟩, PdVal.date 739000)] "Fiche de Contrôle - OF n° .xlsx"
    rfl rfl rfl rfl (by decide)

/-! ### Claim C9 — determinism -/

/-- C9: `populate_fiche` is a pure function of the source record set and the
template copy: two runs over equal fresh copies of the template return
identical write logs and the same display name. -/
theorem populateFiche_deterministic (src : SourceWorkbook) (t1 t2 : Template)
    (rowIndex maxPlan : Nat) (h : t1 = t2) :
    populateFiche src t1 rowIndex maxPlan = populateFiche src t2 rowIndex maxPlan := by
  rw [h]

/-- C9 witness. -/
theorem populateFiche_deterministic_witness :
    populateFiche srcK tmpl0 0 6 = populateFiche srcK tmpl0 0 6 :=
  populateFiche_deterministic srcK tmpl0 tmpl0 0 6 rfl

/-! ### Claim C10 — NaN is truthy in the identifier chain -/

/-- C10: the Koncile fallback triggers exactly when the work-order value is
Python-falsy (`None`, `0`, `""` are falsy); `NaN` is truthy, so a NaN
work-order cell yields the literal identifier `"nan"` in the file name
rather than the Koncile ID. -/
theorem nan_identifier (src : SourceWorkbook) (tmpl : Template)
    (rowIndex maxPlan : Nat) (row : Row) (ws2 : Ws) (name : String)
    (hrow : src.gen[rowIndex]? = some row)
    (hok : populateFiche src tmpl rowIndex maxPlan = .ok (ws2, name)) :
    (pyTruthy (rowGet row "Numéro d\x27 OF") = false →
      name = "Fiche de Contrôle - OF n° " ++
        pyStr (pyOr (rowGet row "Koncile ID") (PdVal.str "")) ++ ".xlsx")
  ∧ (pyTruthy (rowGet row "Numéro d\x27 OF") = true →
      name = "Fiche de Contrôle - OF n° " ++
        pyStr (rowGet row "Numéro d\x27 OF") ++ ".xlsx")
  ∧ (rowGet row "Numéro d\x27 OF" = PdVal.nan →
      name = "Fiche de Contrôle - OF n° nan.xlsx")
  ∧ pyTruthy PdVal.pynone = false ∧ pyTruthy (PdVal.num 0) = false
  ∧ pyTruthy (PdVal.str "") = false ∧ pyTruthy PdVal.nan = true := by
  obtain ⟨row2, assigns, hrow2, -, hname, -⟩ := populateFiche_ok_inv _ _ _ _ _ _ hok
  rw [hrow] at hrow2
  injection hrow2 with hre
  subst hre
  refine ⟨fun h1 => ?_, fun h1 => ?_, fun h1 => ?_, by decide, by decide, by decide, by decide⟩
  · rw [hname]; simp [pyOr, h1]
  · rw [hname]; simp [pyOr, h1]
  · rw [hname, h1]; rfl

/-- C10 witness: a NaN work-order cell gives the identifier `"nan"`. -/
theorem nan_identifier_witness :
    "Fiche de Contrôle - OF n° nan.xlsx" =
      "Fiche de Contrôle - OF n° " ++ pyStr (rowGet rowNanOF "Numéro d\x27 OF") ++ ".xlsx" :=
  (nan_identifier srcNanOF tmpl0 0 6 rowNanOF [] "Fiche de Contrôle - OF n° nan.xlsx"
    rfl rfl).2.1 rfl

end APR
